import Mathlib

/-!
Verification development for the express-auth repository.

The embedded code is `src/config/auth.js` (the secret, the passport-jwt
strategy, and `createUserToken`) and `src/models/user.js` (the `toJSON`
transform of the user schema).  External collaborators are modelled by
their documented behaviour: bcrypt comparison is an abstract `Hasher`
parameter, `jsonwebtoken` sign/verify is a record of the claims plus the
signing key, and the Mongoose store is a list of user documents with
`find?` lookups.
-/

set_option autoImplicit false

namespace ExpressAuth

/-- A stored user document, after `src/models/user.js`: `_id` (Mongo identity),
`email`, `password` (the bcrypt hash) and the optional `token` field. -/
structure UserDoc where
  _id : Nat
  email : String
  password : String
  token : Option String := none
  deriving Repr, DecidableEq

/-- The credential store: the collection of user documents. -/
abbrev Store := List UserDoc

/-- Mongoose `User.findById`: the document whose `_id` matches, if any. -/
def findById (store : Store) (id : Nat) : Option UserDoc :=
  store.find? (fun u => u._id = id)

/-- Mongoose `User.findOne({email})`: the document whose `email` matches, if any. -/
def findByEmail (store : Store) (email : String) : Option UserDoc :=
  store.find? (fun u => u.email = email)

/-- The hard-coded fallback secret of `src/config/auth.js` line 51. -/
def defaultSecret : String := "some string value only your app knows"

/-- `const secret = process.env.JWT_SECRET || '...'` (auth.js line 51).
JavaScript `||` takes the right operand when the left is falsy; for the
environment value (a string or `undefined`) falsy means `undefined` or `""`. -/
def secret (envJwtSecret : Option String) : String :=
  match envJwtSecret with
  | none => defaultSecret
  | some s => if s = "" then defaultSecret else s

/-- `opts.secretOrKey` (auth.js line 87): the same `secret` binding,
handed to the passport-jwt strategy for verification. -/
def secretOrKey (envJwtSecret : Option String) : String :=
  secret envJwtSecret

/-- The decoded JWT payload produced by `jwt.sign({ id: user._id }, ...)`:
the object literal has the single key `id`. -/
structure JwtPayload where
  id : Nat
  deriving Repr, DecidableEq

/-- A signed token: the claims (`payload`, `iat`, `exp`) together with the
key that signed it (standing in for the signature). -/
structure SignedToken where
  payload : JwtPayload
  iat : Nat
  exp : Nat
  sig : String
  deriving Repr, DecidableEq

/-- `jsonwebtoken`'s `jwt.sign(payload, key, { expiresIn })`: claims carry
the payload, issued-at `now`, and expiry `now + expiresIn` (seconds). -/
def jwtSign (payload : JwtPayload) (key : String) (expiresIn : Nat) (now : Nat) :
    SignedToken :=
  { payload := payload, iat := now, exp := now + expiresIn, sig := key }

/-- `jsonwebtoken` verification as performed inside passport-jwt: the
signature must match the key and the current time must be before `exp`. -/
def jwtVerify (tok : SignedToken) (key : String) (now : Nat) : Option JwtPayload :=
  if tok.sig = key ∧ now < tok.exp then some tok.payload else none

/-- The error thrown by `createUserToken` (auth.js lines 198-199):
`new Error('The provided username or password is incorrect')` with
`err.statusCode = 422`. -/
structure AuthError where
  message : String
  statusCode : Nat
  deriving Repr, DecidableEq

/-- The single credential-failure error value of `createUserToken`. -/
def invalidCredentials : AuthError :=
  { message := "The provided username or password is incorrect", statusCode := 422 }

/-- The external bcrypt collaborator: `bcrypt.compareSync(plain, hash)`. -/
structure Hasher where
  compareSync : String → String → Bool

/-- JavaScript truthiness of `req.body.credentials.password`: the value is
either absent (`undefined`, falsy) or a string, falsy exactly when empty. -/
def passwordTruthy : Option String → Bool
  | none => false
  | some s => s ≠ ""

/-- `createUserToken` (auth.js lines 186-205), instrumented with a flag
recording whether `bcrypt.compareSync` was evaluated.  The `||` chain of
line 193-197 short-circuits left to right: `!user`, then
`!req.body.credentials.password`, then `!bcrypt.compareSync(...)`.
On failure it throws `invalidCredentials`; on success it returns
`jwt.sign({ id: user._id }, secret, { expiresIn: 36000 })`. -/
def createUserTokenT (hasher : Hasher) (password : Option String)
    (user : Option UserDoc) (envJwtSecret : Option String) (now : Nat) :
    Except AuthError SignedToken × Bool :=
  match user with
  | none => (.error invalidCredentials, false)
  | some u =>
    if passwordTruthy password then
      if hasher.compareSync (password.getD "") u.password then
        (.ok (jwtSign { id := u._id } (secret envJwtSecret) 36000 now), true)
      else
        (.error invalidCredentials, true)
    else
      (.error invalidCredentials, false)

/-- `createUserToken`: the result of the instrumented version. -/
def createUserToken (hasher : Hasher) (password : Option String)
    (user : Option UserDoc) (envJwtSecret : Option String) (now : Nat) :
    Except AuthError SignedToken :=
  (createUserTokenT hasher password user envJwtSecret now).1

/-- The strategy callback (auth.js lines 112-129): from the decoded payload
it looks the user up by id and calls `done(null, user)`; the returned pair is
(the `error` argument of `done`, the `user` argument of `done`).  The model
store lookup cannot reject, so the `.catch(err => done(err))` branch is
unreachable and the error argument is always `none`. -/
def strategyCallback (store : Store) (jwt_payload : JwtPayload) :
    Option AuthError × Option UserDoc :=
  (none, findById store jwt_payload.id)

/-- Outcome of verifying an inbound token through the registered strategy. -/
inductive VerifyOutcome where
  /-- passport-jwt itself rejected the token (bad signature or expired):
  the strategy callback is never reached. -/
  | invalidToken
  /-- The callback ran and invoked `done error user`. -/
  | doneCall (error : Option AuthError) (user : Option UserDoc)
  deriving Repr, DecidableEq

/-- The whole `requireToken` verification path: passport-jwt checks the
signature against `opts.secretOrKey` and the expiry, then hands the decoded
payload to the strategy callback. -/
def verifyToken (store : Store) (envJwtSecret : Option String)
    (tok : SignedToken) (now : Nat) : VerifyOutcome :=
  match jwtVerify tok (secretOrKey envJwtSecret) now with
  | none => .invalidToken
  | some payload =>
    .doneCall (strategyCallback store payload).1 (strategyCallback store payload).2

/-- Modelled from the spec: `VerifyToken` as §4.1 words it — on valid
signature and non-expired claim resolve the embedded id through the store;
if the user no longer exists fail with the distinct kind `UnknownSubject`;
otherwise return the identity. -/
inductive SpecVerifyOutcome where
  | identity (u : UserDoc)
  | unknownSubject
  | invalidTok
  deriving Repr, DecidableEq

/-- Modelled from the spec (§4.1 VerifyToken): the spec-side verifier, to be
compared with `verifyToken` embedded from the source. -/
def verifyTokenSpec (store : Store) (envJwtSecret : Option String)
    (tok : SignedToken) (now : Nat) : SpecVerifyOutcome :=
  match jwtVerify tok (secretOrKey envJwtSecret) now with
  | none => .invalidTok
  | some payload =>
    match findById store payload.id with
    | none => .unknownSubject
    | some u => .identity u

/-- The `toJSON` transform of the user schema (src/models/user.js lines
24-29): `delete user.password; return user`, acting on the serialized
key/value object. -/
def toJSONTransform {α : Type} (user : List (String × α)) : List (String × α) :=
  user.filter (fun kv => kv.1 ≠ "password")

/-- The store threaded through an operation, to state frame properties. -/
structure DB where
  users : Store
  deriving Repr, DecidableEq

/-- The login flow with the store threaded: the caller's `findOne` by email
followed by `createUserToken`; the store is only read. -/
def createUserTokenDB (hasher : Hasher) (password : Option String)
    (email : String) (envJwtSecret : Option String) (now : Nat) (db : DB) :
    Except AuthError SignedToken × DB :=
  let u := findByEmail db.users email
  (createUserToken hasher password u envJwtSecret now, db)

/-- The verification flow with the store threaded: passport-jwt check, then
the callback's `findById`; the store is only read. -/
def verifyTokenDB (envJwtSecret : Option String) (tok : SignedToken)
    (now : Nat) (db : DB) : VerifyOutcome × DB :=
  match jwtVerify tok (secretOrKey envJwtSecret) now with
  | none => (.invalidToken, db)
  | some payload =>
    let u := findById db.users payload.id
    (.doneCall none u, db)

/-- A concrete hasher used to instantiate witnesses: a password matches a
stored hash exactly when the hash is the password prefixed by "hashed:". -/
def toyHasher : Hasher :=
  ⟨fun p h => h = "hashed:" ++ p⟩

/-- A concrete user document used to instantiate witnesses. -/
def demoUser : UserDoc :=
  { _id := 1, email := "a@x.com", password := "hashed:secret1", token := none }

/-! ## Claims -/

/-- Claim C1 (counterexample): the claim quantifies over every password `P`
whose bcrypt hash is stored, but for `P = ""` — whose bcrypt hash is a
perfectly valid stored hash, here one the hasher confirms — `createUserToken`
throws `invalidCredentials` instead of succeeding, because the falsy-password
guard on line 195 rejects the request before the hash comparison. -/
theorem c1_empty_password_counterexample :
    toyHasher.compareSync "" "hashed:" = true ∧
    createUserToken toyHasher (some "")
      (findByEmail [{ _id := 1, email := "a@x.com", password := "hashed:", token := none }]
        "a@x.com") none 0 = .error invalidCredentials :=
  ⟨by decide, rfl⟩

/-- Claim C1 (amended): for every user record stored with email `E` and a
bcrypt hash of a non-empty password `P`, `createUserToken` called with `E`
and `P` succeeds with a token whose payload id is that user's `_id`, and the
passport-jwt strategy applied to that token before expiry resolves the same
user. -/
theorem createUserToken_verifyToken_roundtrip
    (hasher : Hasher) (store : Store) (u : UserDoc) (email pw : String)
    (env : Option String) (now now' : Nat)
    (hpw : pw ≠ "")
    (hfind : findByEmail store email = some u)
    (hcmp : hasher.compareSync pw u.password = true)
    (hid : findById store u._id = some u)
    (hfresh : now' < now + 36000) :
    ∃ tok : SignedToken,
      createUserToken hasher (some pw) (findByEmail store email) env now = .ok tok ∧
      tok.payload.id = u._id ∧
      verifyToken store env tok now' = .doneCall none (some u) := by
  refine ⟨jwtSign { id := u._id } (secret env) 36000 now, ?_, rfl, ?_⟩
  · simp [createUserToken, createUserTokenT, hfind, passwordTruthy, hpw, hcmp]
  · simp [verifyToken, jwtVerify, jwtSign, secretOrKey, hfresh, strategyCallback, hid]

/-- Claim C1 witness: the round-trip at a concrete store, password and clock. -/
theorem createUserToken_verifyToken_roundtrip_witness :
    ∃ tok : SignedToken,
      createUserToken toyHasher (some "secret1") (findByEmail [demoUser] "a@x.com")
        none 100 = .ok tok ∧
      tok.payload.id = 1 ∧
      verifyToken [demoUser] none tok 200 = .doneCall none (some demoUser) :=
  createUserToken_verifyToken_roundtrip toyHasher [demoUser] demoUser "a@x.com" "secret1"
    none 100 200 (by decide) (by decide) (by decide) (by decide) (by decide)

/-- Claim C2: an unknown email (lookup by email returns absent) and an
existing email with a non-matching password produce the very same error
value — same kind, same status code 422, same message — so the response
shape cannot distinguish the two causes. -/
theorem createUserToken_failures_identical
    (hasher : Hasher) (store : Store) (email : String) (pw pw' : Option String)
    (u : UserDoc) (env env' : Option String) (now now' : Nat)
    (hmiss : findByEmail store email = none)
    (htruthy : passwordTruthy pw' = true)
    (hcmp : hasher.compareSync (pw'.getD "") u.password = false) :
    createUserToken hasher pw (findByEmail store email) env now
      = .error invalidCredentials ∧
    createUserToken hasher pw' (some u) env' now' = .error invalidCredentials ∧
    invalidCredentials.statusCode = 422 := by
  refine ⟨?_, ?_, rfl⟩
  · simp [createUserToken, createUserTokenT, hmiss]
  · simp [createUserToken, createUserTokenT, htruthy, hcmp]

/-- Claim C2 witness: a concrete unknown email and a concrete wrong password
against `demoUser` yield the identical error. -/
theorem createUserToken_failures_identical_witness :
    createUserToken toyHasher (some "anything") (findByEmail [demoUser] "nouser@x.com")
      none 0 = .error invalidCredentials ∧
    createUserToken toyHasher (some "wrong") (some demoUser) none 7
      = .error invalidCredentials ∧
    invalidCredentials.statusCode = 422 :=
  createUserToken_failures_identical toyHasher [demoUser] "nouser@x.com"
    (some "anything") (some "wrong") demoUser none none 0 7
    (by decide) (by decide) (by decide)

/-- Claim C3: at the concrete successful login the token's expiry is
`iat + 36000` seconds, not the 3600-second window the claim (and the code's
own comment, which reads "36000 seconds / 1 hr") states: line 204 passes
`expiresIn: 36000` to `jwt.sign`. -/
theorem createUserToken_ttl_is_36000_not_3600 :
    createUserToken toyHasher (some "secret1") (some demoUser) none 0 =
      .ok { payload := { id := 1 }, iat := 0, exp := 0 + 36000, sig := defaultSecret } ∧
    (0 + 36000 : Nat) ≠ 0 + 3600 :=
  ⟨rfl, by decide⟩

/-- Claim C4 (counterexample): a token with a valid signature and unexpired
claims whose id resolves to no user. The spec-side verifier returns the
distinct kind `unknownSubject`, but the code's strategy callback merely calls
`done(null, null)` — the error argument is `none`, so no distinct
`UnknownSubject` error kind is raised anywhere. -/
theorem c4_unknownSubject_counterexample :
    verifyTokenSpec [] none (jwtSign { id := 1 } defaultSecret 36000 0) 5
      = .unknownSubject ∧
    verifyToken [] none (jwtSign { id := 1 } defaultSecret 36000 0) 5
      = .doneCall none none :=
  ⟨rfl, rfl⟩

/-- Claim C4 (amended): for every token with a valid signature and unexpired
claims whose embedded id no longer resolves to a stored user, the strategy
does not resolve an identity: its callback invokes `done` with a null error
and a null user, which passport surfaces as a generic unauthorized failure
(no distinct `UnknownSubject` error kind exists in the code). -/
theorem verifyToken_missing_user_fails_generic
    (store : Store) (env : Option String) (tok : SignedToken) (now : Nat)
    (hsig : tok.sig = secretOrKey env)
    (hfresh : now < tok.exp)
    (hmiss : findById store tok.payload.id = none) :
    verifyToken store env tok now = .doneCall none none := by
  simp [verifyToken, jwtVerify, hsig, hfresh, strategyCallback, hmiss]

/-- Claim C4 witness: the amended behaviour at a concrete empty store. -/
theorem verifyToken_missing_user_fails_generic_witness :
    verifyToken [] none (jwtSign { id := 1 } defaultSecret 36000 0) 5
      = .doneCall none none :=
  verifyToken_missing_user_fails_generic [] none
    (jwtSign { id := 1 } defaultSecret 36000 0) 5 (by decide) (by decide) (by decide)

/-- Claim C5: every token `createUserToken` returns is exactly
`{ payload := { id := user._id }, iat := now, exp := now + 36000, sig := secret }`:
the payload carries only the user id (the `JwtPayload` of line 204 has the
single key `id`), the only other claims are the timestamps, and neither the
email nor the password hash occurs anywhere in the token. -/
theorem createUserToken_payload_minimal
    (hasher : Hasher) (password : Option String) (user : Option UserDoc)
    (env : Option String) (now : Nat) (tok : SignedToken)
    (hok : createUserToken hasher password user env now = .ok tok) :
    ∃ u, user = some u ∧
      tok = { payload := { id := u._id }, iat := now, exp := now + 36000,
              sig := secret env } := by
  cases user with
  | none => simp [createUserToken, createUserTokenT] at hok
  | some u =>
    refine ⟨u, rfl, ?_⟩
    cases ht : passwordTruthy password with
    | false => simp [createUserToken, createUserTokenT, ht] at hok
    | true =>
      cases hc : hasher.compareSync (password.getD "") u.password with
      | false => simp [createUserToken, createUserTokenT, ht, hc] at hok
      | true =>
        simp [createUserToken, createUserTokenT, ht, hc, jwtSign] at hok
        exact hok.symm

/-- Claim C5 witness: the concrete token issued for `demoUser` is exactly the
minimal-claims token. -/
theorem createUserToken_payload_minimal_witness :
    ∃ u, some demoUser = some u ∧
      ({ payload := { id := 1 }, iat := 100, exp := 100 + 36000,
         sig := defaultSecret } : SignedToken)
        = { payload := { id := u._id }, iat := 100, exp := 100 + 36000,
            sig := secret none } :=
  createUserToken_payload_minimal toyHasher (some "secret1") (some demoUser) none 100
    { payload := { id := 1 }, iat := 100, exp := 100 + 36000, sig := defaultSecret }
    rfl

/-- Claim C6 (counterexample): with the environment variable set to the empty
string the code does not take the secret from the environment: JavaScript
`||` treats `""` as falsy, so the fallback default is used instead. -/
theorem c6_empty_env_counterexample :
    secret (some "") = defaultSecret ∧ defaultSecret ≠ "" :=
  ⟨rfl, by decide⟩

/-- Claim C6 (amended): signing and verification use the same secret value
(`opts.secretOrKey` is the very `secret` binding), the secret is non-empty in
every environment, it is taken from the environment when that value is
non-empty, and otherwise (unset or empty) it is the non-empty fallback. -/
theorem secret_shared_and_nonempty (env : Option String) :
    secretOrKey env = secret env ∧
    secret env ≠ "" ∧
    (∀ s : String, s ≠ "" → secret (some s) = s) ∧
    secret none = defaultSecret := by
  refine ⟨rfl, ?_, ?_, rfl⟩
  · cases env with
    | none => simp [secret]; decide
    | some s =>
      by_cases hs : s = "" <;> simp [secret, hs]
      decide
  · intro s hs
    simp [secret, hs]

/-- Claim C6 witness: the amended statement at the concrete environments
`JWT_SECRET = "abc"` and unset. -/
theorem secret_shared_and_nonempty_witness :
    secretOrKey (some "abc") = secret (some "abc") ∧
    secret (some "abc") ≠ "" ∧
    secret (some "abc") = "abc" ∧
    secret none = defaultSecret := by
  have h := secret_shared_and_nonempty (some "abc")
  exact ⟨h.1, h.2.1, h.2.2.1 "abc" (by decide), h.2.2.2⟩

/-- Claim C7: every credential failure of `createUserToken` is the single
error `invalidCredentials` with status 422 and the one fixed message, which
names neither the email nor the password as the wrong field. -/
theorem createUserToken_failure_shape
    (hasher : Hasher) (password : Option String) (user : Option UserDoc)
    (env : Option String) (now : Nat) (e : AuthError)
    (herr : createUserToken hasher password user env now = .error e) :
    e = invalidCredentials ∧ e.statusCode = 422 ∧
    e.message = "The provided username or password is incorrect" := by
  have he : e = invalidCredentials := by
    cases user with
    | none =>
      simp [createUserToken, createUserTokenT] at herr
      exact herr.symm
    | some u =>
      cases ht : passwordTruthy password with
      | false =>
        simp [createUserToken, createUserTokenT, ht] at herr
        exact herr.symm
      | true =>
        cases hc : hasher.compareSync (password.getD "") u.password with
        | false =>
          simp [createUserToken, createUserTokenT, ht, hc] at herr
          exact herr.symm
        | true => simp [createUserToken, createUserTokenT, ht, hc] at herr
  exact ⟨he, by rw [he]; rfl, by rw [he]; rfl⟩

/-- Claim C7 witness: the concrete failure shape for an absent user. -/
theorem createUserToken_failure_shape_witness :
    invalidCredentials = invalidCredentials ∧
    invalidCredentials.statusCode = 422 ∧
    invalidCredentials.message = "The provided username or password is incorrect" :=
  createUserToken_failure_shape toyHasher (some "pw") none none 0
    invalidCredentials rfl

/-- Claim C8: whatever key/value fields a serialized user document carries,
the schema's `toJSON` transform removes the `password` key, so the public
serialization never contains the password hash. -/
theorem toJSONTransform_omits_password {α : Type} (user : List (String × α)) :
    "password" ∉ (toJSONTransform user).map Prod.fst := by
  simp only [toJSONTransform, List.mem_map, List.mem_filter]
  rintro ⟨kv, ⟨-, hne⟩, hk⟩
  simp [hk] at hne

/-- Claim C9: neither the login flow (`findOne` by email plus
`createUserToken`) nor the verification flow (passport-jwt check plus the
callback's `findById`) changes the store: whatever the outcome, the threaded
database is returned unchanged. -/
theorem auth_ops_frame (hasher : Hasher) (password : Option String) (email : String)
    (env env' : Option String) (now now' : Nat) (tok : SignedToken) (db : DB) :
    (createUserTokenDB hasher password email env now db).2 = db ∧
    (verifyTokenDB env' tok now' db).2 = db := by
  constructor
  · rfl
  · unfold verifyTokenDB
    cases jwtVerify tok (secretOrKey env') now' <;> rfl

/-- Claim C10: whenever the presented password is absent or empty (falsy),
`createUserToken` throws the very same `invalidCredentials` error and the
instrumentation flag shows `bcrypt.compareSync` was never evaluated — the
`||` chain short-circuits at `!req.body.credentials.password` — regardless of
the hasher, so even a stored hash matching `""` is never consulted. -/
theorem createUserToken_falsy_password_short_circuits
    (hasher : Hasher) (u : UserDoc) (env : Option String) (now : Nat)
    (password : Option String)
    (hfalsy : passwordTruthy password = false) :
    createUserTokenT hasher password (some u) env now
      = (.error invalidCredentials, false) := by
  simp [createUserTokenT, hfalsy]

/-- Claim C10 witness: an empty presented password against a user whose
stored hash does match the empty string under the ambient hasher; the error
is thrown and the comparison is never invoked. -/
theorem createUserToken_falsy_password_short_circuits_witness :
    (Hasher.mk fun _ _ => true).compareSync "" "hashed:" = true ∧
    createUserTokenT (Hasher.mk fun _ _ => true) (some "")
      (some { _id := 1, email := "a@x.com", password := "hashed:", token := none })
      none 0 = (.error invalidCredentials, false) :=
  ⟨rfl, createUserToken_falsy_password_short_circuits (Hasher.mk fun _ _ => true)
    { _id := 1, email := "a@x.com", password := "hashed:", token := none }
    none 0 (some "") (by decide)⟩

end ExpressAuth
